import Mathlib

/-!
Shallow embedding of the CarePlus hospital-finder core (src/src/App.tsx):
the geo-math module (`toRad`, `calculateDistance`), the result pipeline
inside `fetchNearbyHospitals` (filter by name tag, coordinate resolution,
record construction, truthiness filter on coordinates, sort by distance,
truncation to 10), and the session-level state transitions of the `App`
component (geolocation success/failure, fetch success/failure, render
states).

Numbers are modelled as ideal reals (JavaScript floating point is not
modelled); JavaScript truthiness is modelled explicitly: a missing field
is `none`, a string is truthy iff it is nonempty, a number is truthy iff
it is nonzero.
-/

namespace CarePlus

/-- A latitude/longitude pair, as the `{lat, lng}` objects in the source. -/
structure Coord where
  lat : ℝ
  lng : ℝ

/-- The `center` object of an Overpass element (`element.center.{lat,lon}`). -/
structure RawCenter where
  lat : ℝ
  lon : ℝ

/-- The `tags` object of an Overpass element; each tag may be absent. -/
structure Tags where
  name : Option String
  addrStreet : Option String
  phone : Option String
  emergency : Option String

/-- The default (all-absent) tags object, used as junk when `tags` is absent. -/
def noTags : Tags := ⟨none, none, none, none⟩

/-- A raw Overpass element: `id`, optional direct `lat`/`lon`, optional
`tags` object, optional `center`. -/
structure Element where
  id : ℤ
  lat : Option ℝ
  lon : Option ℝ
  tags : Option Tags
  center : Option RawCenter

/-- The tags of an element, defaulting to the empty tags object. -/
def Element.tagsD (e : Element) : Tags := e.tags.getD noTags

/-- The location field of a `HospitalData` record; either component can be
`undefined` in the source (modelled as `none`) before the truthiness filter. -/
structure Loc where
  lat : Option ℝ
  lng : Option ℝ

/-- The `HospitalData` record of the source (interface `HospitalData`). -/
structure HospitalData where
  id : ℤ
  name : String
  distance : ℝ
  address : String
  phone : String
  emergency : Bool
  rating : ℝ
  specialties : List String
  openNow : Bool
  loc : Loc

/-- JavaScript truthiness of an optional string: `undefined` and `""` are
falsy, every other string is truthy. -/
def truthyStr : Option String → Bool
  | none => false
  | some s => s ≠ ""

/-- JavaScript truthiness of an optional number: `undefined` and `0` are
falsy (NaN is not modelled). -/
noncomputable def truthyNum : Option ℝ → Bool
  | none => false
  | some v => decide (v ≠ 0)

/-- `x || d` on strings: the string when truthy, else the default. -/
def strOr (o : Option String) (d : String) : String :=
  match o with
  | none => d
  | some s => if s = "" then d else s

/-- `toRad` from the source: `(value * Math.PI) / 180`. -/
noncomputable def toRad (value : ℝ) : ℝ := value * Real.pi / 180

/-- JavaScript `Math.atan2 y x` over ideal reals (principal value in
`(-pi, pi]`; signed zero is not modelled, `atan2 0 0 = 0`). -/
noncomputable def atan2 (y x : ℝ) : ℝ :=
  if 0 < x then Real.arctan (y / x)
  else if x < 0 then
    (if 0 ≤ y then Real.arctan (y / x) + Real.pi else Real.arctan (y / x) - Real.pi)
  else
    (if 0 < y then Real.pi / 2 else if y < 0 then -(Real.pi / 2) else 0)

/-- `calculateDistance` from the source: the Haversine great-circle
distance in kilometers with Earth radius 6371 km. -/
noncomputable def calculateDistance (lat1 lon1 lat2 lon2 : ℝ) : ℝ :=
  let R : ℝ := 6371
  let dLat := toRad (lat2 - lat1)
  let dLon := toRad (lon2 - lon1)
  let a :=
    Real.sin (dLat / 2) * Real.sin (dLat / 2) +
    Real.cos (toRad lat1) * Real.cos (toRad lat2) *
    Real.sin (dLon / 2) * Real.sin (dLon / 2)
  let c := 2 * atan2 (Real.sqrt a) (Real.sqrt (1 - a))
  R * c

/-- `parseFloat(x.toFixed(1))` modelled as rounding to the nearest multiple
of one tenth. -/
noncomputable def roundTo1 (x : ℝ) : ℝ := (round (10 * x) : ℤ) / 10

/-- `element.tags && element.tags.name`: the filter predicate on raw
elements (tags present and name tag truthy). -/
def hasNamedTags (e : Element) : Bool :=
  match e.tags with
  | none => false
  | some t => truthyStr t.name

/-- `element.lat || (element.center && element.center.lat)`: the resolved
latitude, `none` when the JavaScript expression is `undefined`. -/
noncomputable def resolvedLat (e : Element) : Option ℝ :=
  match e.lat with
  | some v => if v ≠ 0 then some v else e.center.map RawCenter.lat
  | none => e.center.map RawCenter.lat

/-- `element.lon || (element.center && element.center.lon)`: the resolved
longitude, `none` when the JavaScript expression is `undefined`. -/
noncomputable def resolvedLng (e : Element) : Option ℝ :=
  match e.lon with
  | some v => if v ≠ 0 then some v else e.center.map RawCenter.lon
  | none => e.center.map RawCenter.lon

/-- The body of the `.map` in `fetchNearbyHospitals`: builds one
`HospitalData` record from a raw element and the user's location.
An unresolved coordinate makes the record's distance junk (NaN in the
source, `getD 0` here); such records never pass the truthiness filter,
which runs before the sort. -/
noncomputable def toRecord (u : Coord) (e : Element) : HospitalData :=
  let lat := resolvedLat e
  let lng := resolvedLng e
  let t := e.tagsD
  { id := e.id
    name := t.name.getD ""
    distance := roundTo1 (calculateDistance u.lat u.lng (lat.getD 0) (lng.getD 0))
    address := strOr t.addrStreet "Address not available"
    phone := strOr t.phone "N/A"
    emergency := t.emergency = some "yes"
    rating := 4
    specialties := ["General Medicine"]
    openNow := true
    loc := ⟨lat, lng⟩ }

/-- The pipeline stages before sort and truncation:
`.filter(element => element.tags && element.tags.name).map(...).filter(h => h.location.lat && h.location.lng)`. -/
noncomputable def preList (elems : List Element) (u : Coord) : List HospitalData :=
  ((elems.filter hasNamedTags).map (toRecord u)).filter
    (fun h => truthyNum h.loc.lat && truthyNum h.loc.lng)

/-- The comparator `.sort((a, b) => a.distance - b.distance)` modelled as
the corresponding Boolean less-or-equal test. -/
noncomputable def distLE (a b : HospitalData) : Bool := decide (a.distance ≤ b.distance)

/-- The whole result pipeline of `fetchNearbyHospitals`:
filter by name, map to records, filter by coordinate truthiness, sort
ascending by distance, `.slice(0, 10)`. -/
noncomputable def buildResultSet (elems : List Element) (u : Coord) : List HospitalData :=
  ((preList elems u).mergeSort distLE).take 10

/-- The React state of the `App` component: `location`, `hospitals`,
`loading`, `error`. -/
structure AppState where
  location : Option Coord
  hospitals : List HospitalData
  loading : Bool
  error : Option String

/-- `useState` initial values: no location, empty list, loading, no error. -/
def initialState : AppState := ⟨none, [], true, none⟩

/-- The geolocation error message set by the `getCurrentPosition` error
callback. -/
def locDeniedMsg : String := "Please enable location services to find nearby hospitals"

/-- The message set when `geolocation` is not in `navigator`. -/
def unsupportedMsg : String := "Geolocation is not supported by your browser"

/-- The message set by the `catch` block of `fetchNearbyHospitals`. -/
def fetchFailMsg : String := "Failed to fetch nearby hospitals. Please try again later."

/-- `fetchNearbyHospitals` as a state transition: on a successful fetch
whose body parses to an element list, set `hospitals` to the pipeline
output; any exception (network failure, non-JSON body, missing
`elements`) lands in the `catch` block, which only sets `error`. -/
noncomputable def fetchNearbyHospitals (st : AppState) (u : Coord)
    (response : Except Unit (List Element)) : AppState :=
  match response with
  | .ok elems => { st with hospitals := buildResultSet elems u }
  | .error _ => { st with error := some fetchFailMsg }

/-- The startup `useEffect` as one sequential session: check geolocation
support, run `getCurrentPosition`, on success set the location, await
`fetchNearbyHospitals`, clear `loading`; on failure set the error message
and clear `loading`. The Boolean result records whether the network query
was issued. -/
noncomputable def runSession (geoSupported : Bool) (geo : Except Unit Coord)
    (response : Except Unit (List Element)) : AppState × Bool :=
  if geoSupported then
    match geo with
    | .ok u =>
      let st1 := { initialState with location := some u }
      let st2 := fetchNearbyHospitals st1 u response
      ({ st2 with loading := false }, true)
    | .error _ =>
      ({ initialState with error := some locDeniedMsg, loading := false }, false)
  else
    ({ initialState with error := some unsupportedMsg, loading := false }, false)

/-- The three mutually exclusive render states of the component. -/
inductive RenderState where
  | loadingView : RenderState
  | errorView : String → RenderState
  | resultsView : List HospitalData → RenderState

/-- The early returns of `App`: loading first, then error, then results. -/
def render (st : AppState) : RenderState :=
  if st.loading then .loadingView
  else
    match st.error with
    | some m => .errorView m
    | none => .resultsView st.hospitals

/-! ### Geo-math lemmas -/

lemma toRad_zero : toRad 0 = 0 := by
  unfold toRad
  ring

lemma toRad_sub_comm (a b : ℝ) : toRad (a - b) = -toRad (b - a) := by
  unfold toRad
  ring

lemma sin_sq_toRad_comm (a b : ℝ) :
    Real.sin (toRad (a - b) / 2) * Real.sin (toRad (a - b) / 2) =
    Real.sin (toRad (b - a) / 2) * Real.sin (toRad (b - a) / 2) := by
  rw [toRad_sub_comm a b, neg_div, Real.sin_neg]
  ring

lemma arctan_nonneg {x : ℝ} (h : 0 ≤ x) : 0 ≤ Real.arctan x := by
  have h2 := Real.arctan_strictMono.monotone h
  rwa [Real.arctan_zero] at h2

lemma atan2_nonneg {y : ℝ} (hy : 0 ≤ y) (x : ℝ) : 0 ≤ atan2 y x := by
  unfold atan2
  rcases lt_trichotomy x 0 with hx | hx | hx
  · rw [if_neg (by linarith), if_pos hx, if_pos hy]
    have ha := Real.neg_pi_div_two_lt_arctan (y / x)
    have hpi := Real.pi_pos
    linarith
  · subst hx
    rw [if_neg (lt_irrefl 0), if_neg (lt_irrefl 0)]
    rcases eq_or_lt_of_le hy with hy0 | hy0
    · rw [if_neg (by linarith), if_neg (by linarith)]
    · rw [if_pos hy0]
      have hpi := Real.pi_pos
      linarith
  · rw [if_pos hx]
    exact arctan_nonneg (div_nonneg hy hx.le)

lemma calculateDistance_comm (lat1 lon1 lat2 lon2 : ℝ) :
    calculateDistance lat1 lon1 lat2 lon2 = calculateDistance lat2 lon2 lat1 lon1 := by
  simp only [calculateDistance]
  rw [toRad_sub_comm lat2 lat1, toRad_sub_comm lon2 lon1]
  simp only [neg_div, Real.sin_neg]
  ring_nf

lemma calculateDistance_self (lat lon : ℝ) : calculateDistance lat lon lat lon = 0 := by
  simp [calculateDistance, sub_self, toRad_zero, Real.sqrt_one, atan2, Real.arctan_zero,
    zero_lt_one]

lemma calculateDistance_nonneg (lat1 lon1 lat2 lon2 : ℝ) :
    0 ≤ calculateDistance lat1 lon1 lat2 lon2 := by
  have h : ∀ a : ℝ, 0 ≤ (6371 : ℝ) * (2 * atan2 (Real.sqrt a) (Real.sqrt (1 - a))) := by
    intro a
    have h1 := atan2_nonneg (Real.sqrt_nonneg a) (Real.sqrt (1 - a))
    linarith
  simp only [calculateDistance]
  exact h _

lemma roundTo1_nonneg {x : ℝ} (hx : 0 ≤ x) : 0 ≤ roundTo1 x := by
  unfold roundTo1
  have h0 : (0 : ℤ) ≤ round (10 * x) := by
    rw [round_eq]
    exact Int.floor_nonneg.mpr (by linarith)
  have h1 : (0 : ℝ) ≤ ((round (10 * x) : ℤ) : ℝ) := Int.cast_nonneg.mpr h0
  positivity

/-! ### Pipeline lemmas -/

lemma toRecord_loc (u : Coord) (e : Element) :
    (toRecord u e).loc = ⟨resolvedLat e, resolvedLng e⟩ := rfl

lemma toRecord_distance (u : Coord) (e : Element) :
    (toRecord u e).distance =
      roundTo1 (calculateDistance u.lat u.lng ((resolvedLat e).getD 0) ((resolvedLng e).getD 0)) :=
  rfl

lemma toRecord_fields (u : Coord) (e : Element) :
    (toRecord u e).address = strOr e.tagsD.addrStreet "Address not available" ∧
    (toRecord u e).phone = strOr e.tagsD.phone "N/A" ∧
    (toRecord u e).emergency = decide (e.tagsD.emergency = some "yes") ∧
    (toRecord u e).rating = 4 ∧
    (toRecord u e).specialties = ["General Medicine"] ∧
    (toRecord u e).openNow = true :=
  ⟨rfl, rfl, rfl, rfl, rfl, rfl⟩

lemma distLE_trans (a b c : HospitalData) : distLE a b → distLE b c → distLE a c := by
  simp only [distLE, decide_eq_true_eq]
  exact le_trans

lemma distLE_total (a b : HospitalData) : distLE a b || distLE b a := by
  simp only [distLE, Bool.or_eq_true, decide_eq_true_eq]
  exact le_total a.distance b.distance

/-- Every record in the pipeline output arises from a source element that
passed the name filter, and itself passed the coordinate truthiness filter. -/
lemma mem_buildResultSet {elems : List Element} {u : Coord} {r : HospitalData}
    (h : r ∈ buildResultSet elems u) :
    ∃ e, e ∈ elems ∧ hasNamedTags e = true ∧ r = toRecord u e ∧
      truthyNum r.loc.lat = true ∧ truthyNum r.loc.lng = true := by
  have h1 : r ∈ (preList elems u).mergeSort distLE := List.mem_of_mem_take h
  have h2 : r ∈ preList elems u := List.mem_mergeSort.mp h1
  unfold preList at h2
  rw [List.mem_filter] at h2
  obtain ⟨hmap, hcond⟩ := h2
  rw [List.mem_map] at hmap
  obtain ⟨e, hef, her⟩ := hmap
  rw [List.mem_filter] at hef
  rw [Bool.and_eq_true] at hcond
  exact ⟨e, hef.1, hef.2, her.symm, hcond.1, hcond.2⟩

/-- On a one-element input that passes both filters, the pipeline returns
exactly the one record. -/
lemma buildResultSet_singleton {e : Element} (u : Coord)
    (h1 : hasNamedTags e = true)
    (h2 : truthyNum (resolvedLat e) = true)
    (h3 : truthyNum (resolvedLng e) = true) :
    buildResultSet [e] u = [toRecord u e] := by
  unfold buildResultSet preList
  simp [List.filter, h1, toRecord_loc, h2, h3]

/-- A record whose resolved latitude or longitude is falsy (absent or zero)
never appears in the pipeline output. -/
lemma not_mem_buildResultSet_of_falsy {elems : List Element} {u : Coord}
    {r : HospitalData}
    (h : truthyNum r.loc.lat = false ∨ truthyNum r.loc.lng = false) :
    r ∉ buildResultSet elems u := by
  intro hmem
  obtain ⟨e, -, -, -, hlat, hlng⟩ := mem_buildResultSet hmem
  rcases h with h | h
  · rw [hlat] at h
    exact absurd h (by simp)
  · rw [hlng] at h
    exact absurd h (by simp)

/-! ### Concrete fixtures used by witnesses and counterexamples -/

/-- A named element with nonzero direct coordinates and all tags set. -/
noncomputable def elemFull : Element :=
  { id := 7, lat := some 1, lon := some 2,
    tags := some ⟨some "City Hospital", some "Main Street", some "123", some "yes"⟩,
    center := none }

/-- A named element with direct latitude zero, longitude nonzero, no center. -/
noncomputable def elemZeroLat : Element :=
  { id := 1, lat := some 0, lon := some 5,
    tags := some ⟨some "General Hospital", none, none, none⟩, center := none }

/-- An element with no tags object at all. -/
noncomputable def elemNoTags : Element :=
  { id := 2, lat := some 3, lon := some 4, tags := none, center := none }

/-- A named element whose addr:street and phone tags are empty strings. -/
noncomputable def elemEmptyTags : Element :=
  { id := 3, lat := some 1, lon := some 1,
    tags := some ⟨some "Clinic", some "", some "", none⟩, center := none }

/-- A named element with direct latitude zero and a center whose latitude
is also zero. -/
noncomputable def elemCenterZero : Element :=
  { id := 4, lat := some 0, lon := some 5,
    tags := some ⟨some "Zero Hospital", none, none, none⟩,
    center := some ⟨0, 5⟩ }

/-- A fixed user coordinate. -/
noncomputable def user0 : Coord := ⟨10, 10⟩

lemma elemFull_named : hasNamedTags elemFull = true := rfl

lemma elemFull_lat : truthyNum (resolvedLat elemFull) = true := by
  simp [resolvedLat, elemFull, truthyNum]

lemma elemFull_lng : truthyNum (resolvedLng elemFull) = true := by
  simp [resolvedLng, elemFull, truthyNum]

lemma mem_elemFull :
    toRecord user0 elemFull ∈ buildResultSet [elemFull] user0 := by
  rw [buildResultSet_singleton user0 elemFull_named elemFull_lat elemFull_lng]
  exact List.mem_singleton.mpr rfl

/-! ### Claim theorems -/

/-- Claim C1: for every raw response and user coordinate, the pipeline
output has at most 10 records and the distance fields are non-decreasing
across the sequence. -/
theorem claim_C1 (elems : List Element) (u : Coord) :
    (buildResultSet elems u).length ≤ 10 ∧
    (buildResultSet elems u).Pairwise (fun a b => a.distance ≤ b.distance) := by
  constructor
  · exact List.length_take_le 10 _
  · have hs : ((preList elems u).mergeSort distLE).Pairwise (fun a b => distLE a b = true) :=
      List.sorted_mergeSort distLE_trans distLE_total (preList elems u)
    have ht : (buildResultSet elems u).Pairwise (fun a b => distLE a b = true) :=
      List.Pairwise.sublist (List.take_sublist 10 _) hs
    exact ht.imp (fun h => of_decide_eq_true h)

/-- Claim C2: `calculateDistance` is symmetric in its two coordinate
pairs, returns 0 on identical coordinates, and is non-negative on all
(real) inputs. -/
theorem claim_C2 :
    (∀ lat1 lon1 lat2 lon2 : ℝ,
      calculateDistance lat1 lon1 lat2 lon2 = calculateDistance lat2 lon2 lat1 lon1) ∧
    (∀ lat lon : ℝ, calculateDistance lat lon lat lon = 0) ∧
    (∀ lat1 lon1 lat2 lon2 : ℝ, 0 ≤ calculateDistance lat1 lon1 lat2 lon2) :=
  ⟨calculateDistance_comm, calculateDistance_self, calculateDistance_nonneg⟩

/-- Claim C8: when the fetch step fails, the session ends with the generic
failure message as the error state, the hospitals list stays empty, and
the rendered view is the error view. -/
theorem claim_C8 (u : Coord) :
    ((runSession true (.ok u) (.error ())).1.error = some fetchFailMsg) ∧
    ((runSession true (.ok u) (.error ())).1.hospitals = []) ∧
    render (runSession true (.ok u) (.error ())).1 = .errorView fetchFailMsg := by
  refine ⟨rfl, rfl, ?_⟩
  simp [runSession, fetchNearbyHospitals, initialState, render]

/-- Claim C9: when geolocation fails or is unsupported, the session ends
in the error view with the corresponding fixed message, no network query
is issued, the hospitals list stays empty and no location is recorded. -/
theorem claim_C9 :
    (∀ response : Except Unit (List Element),
      (runSession true (.error ()) response).1.error = some locDeniedMsg ∧
      (runSession true (.error ()) response).1.hospitals = [] ∧
      (runSession true (.error ()) response).1.location = none ∧
      (runSession true (.error ()) response).2 = false ∧
      render (runSession true (.error ()) response).1 = .errorView locDeniedMsg) ∧
    (∀ (geo : Except Unit Coord) (response : Except Unit (List Element)),
      (runSession false geo response).1.error = some unsupportedMsg ∧
      (runSession false geo response).1.hospitals = [] ∧
      (runSession false geo response).1.location = none ∧
      (runSession false geo response).2 = false ∧
      render (runSession false geo response).1 = .errorView unsupportedMsg) := by
  constructor
  · intro response
    refine ⟨rfl, rfl, rfl, rfl, ?_⟩
    simp [runSession, initialState, render]
  · intro geo response
    refine ⟨rfl, rfl, rfl, rfl, ?_⟩
    simp [runSession, initialState, render]

/-- Claim C3 counterexample: a named element carrying a direct coordinate
(lat 0, lon 5) is resolvable per the claim, yet the pipeline discards it
before sorting and truncation, because a latitude of 0 is falsy. -/
theorem claim_C3_cex :
    hasNamedTags elemZeroLat = true ∧
    elemZeroLat.lat = some 0 ∧ elemZeroLat.lon = some 5 ∧
    preList [elemZeroLat] user0 = [] := by
  refine ⟨rfl, rfl, rfl, ?_⟩
  have hlat : resolvedLat elemZeroLat = none := by
    simp [resolvedLat, elemZeroLat]
  unfold preList
  have h1 : List.filter hasNamedTags [elemZeroLat] = [elemZeroLat] := rfl
  rw [h1]
  simp [toRecord_loc, hlat, truthyNum]

/-- Claim C3 (amended): the resolved coordinate prefers the direct lat/lon
when nonzero and falls back to the center when the direct value is absent
or zero; a named element is retained before sorting and truncation exactly
when both resolved components are truthy (present and nonzero). -/
theorem claim_C3_amended :
    (∀ (e : Element) (v : ℝ), e.lat = some v → v ≠ 0 → resolvedLat e = some v) ∧
    (∀ e : Element, e.lat = none ∨ e.lat = some 0 →
      resolvedLat e = e.center.map RawCenter.lat) ∧
    (∀ (elems : List Element) (u : Coord) (e : Element), e ∈ elems →
      hasNamedTags e = true →
      (toRecord u e ∈ preList elems u ↔
        truthyNum (resolvedLat e) = true ∧ truthyNum (resolvedLng e) = true)) := by
  refine ⟨?_, ?_, ?_⟩
  · intro e v h hv
    simp [resolvedLat, h, hv]
  · intro e h
    rcases h with h | h
    · simp [resolvedLat, h]
    · simp [resolvedLat, h]
  · intro elems u e he hn
    constructor
    · intro hmem
      unfold preList at hmem
      rw [List.mem_filter] at hmem
      have hcond := hmem.2
      rw [toRecord_loc] at hcond
      rw [Bool.and_eq_true] at hcond
      exact hcond
    · intro hc
      unfold preList
      rw [List.mem_filter]
      refine ⟨List.mem_map.mpr ⟨e, List.mem_filter.mpr ⟨he, hn⟩, rfl⟩, ?_⟩
      rw [toRecord_loc]
      rw [Bool.and_eq_true]
      exact hc

/-- Claim C3 amended, witnessed at a concrete named element with nonzero
direct coordinates. -/
theorem claim_C3_amended_witness :
    resolvedLat elemFull = some 1 ∧
    (toRecord user0 elemFull ∈ preList [elemFull] user0 ↔
      truthyNum (resolvedLat elemFull) = true ∧ truthyNum (resolvedLng elemFull) = true) :=
  ⟨claim_C3_amended.1 elemFull 1 rfl (by norm_num),
   claim_C3_amended.2.2 [elemFull] user0 elemFull (List.mem_singleton.mpr rfl) rfl⟩

/-- Every record in the pipeline output has a nonempty name, because the
name filter requires a truthy name tag. -/
lemma name_ne_empty_of_mem {elems : List Element} {u : Coord} {r : HospitalData}
    (h : r ∈ buildResultSet elems u) : r.name ≠ "" := by
  obtain ⟨e, -, hn, hr, -, -⟩ := mem_buildResultSet h
  subst hr
  cases htags : e.tags with
  | none => simp [hasNamedTags, htags] at hn
  | some t =>
    simp only [hasNamedTags, htags] at hn
    cases hname : t.name with
    | none => rw [hname] at hn; simp [truthyStr] at hn
    | some s =>
      rw [hname] at hn
      have hs : s ≠ "" := by simpa [truthyStr] using hn
      show e.tagsD.name.getD "" ≠ ""
      simpa [Element.tagsD, htags, hname] using hs

/-- Claim C4: a raw element lacking a `tags.name` value contributes no
record to the pipeline output. -/
theorem claim_C4 (elems : List Element) (u : Coord) (e : Element)
    (h : e.tags = none ∨ ∃ t, e.tags = some t ∧ t.name = none) :
    toRecord u e ∉ buildResultSet elems u := by
  intro hmem
  apply name_ne_empty_of_mem hmem
  show e.tagsD.name.getD "" = ""
  rcases h with h | ⟨t, ht, hname⟩
  · simp [Element.tagsD, h, noTags]
  · simp [Element.tagsD, ht, hname]

/-- Claim C4, witnessed at a concrete element with no tags object. -/
theorem claim_C4_witness :
    toRecord user0 elemNoTags ∉ buildResultSet [elemNoTags] user0 :=
  claim_C4 [elemNoTags] user0 elemNoTags (Or.inl rfl)

/-- Claim C5: every output record comes from a source element, and its
emergency flag is true exactly when that element's `tags.emergency` equals
the string "yes" (any other value, including absence, gives false). -/
theorem claim_C5 (elems : List Element) (u : Coord) (r : HospitalData)
    (h : r ∈ buildResultSet elems u) :
    ∃ e, e ∈ elems ∧ r = toRecord u e ∧
      (r.emergency = true ↔ e.tagsD.emergency = some "yes") := by
  obtain ⟨e, he, -, hr, -, -⟩ := mem_buildResultSet h
  refine ⟨e, he, hr, ?_⟩
  rw [hr, (toRecord_fields u e).2.2.1]
  exact decide_eq_true_iff

/-- Claim C5, witnessed at a concrete element with `emergency = "yes"`. -/
theorem claim_C5_witness :
    ∃ e, e ∈ [elemFull] ∧ toRecord user0 elemFull = toRecord user0 e ∧
      ((toRecord user0 elemFull).emergency = true ↔ e.tagsD.emergency = some "yes") :=
  claim_C5 [elemFull] user0 (toRecord user0 elemFull) mem_elemFull

/-- Claim C6: every output record's distance is non-negative and equals
the Haversine distance from the user to the record's source element,
rounded to one decimal place. -/
theorem claim_C6 (elems : List Element) (u : Coord) (r : HospitalData)
    (h : r ∈ buildResultSet elems u) :
    0 ≤ r.distance ∧
    ∃ e, e ∈ elems ∧ r = toRecord u e ∧
      r.distance = roundTo1 (calculateDistance u.lat u.lng
        ((resolvedLat e).getD 0) ((resolvedLng e).getD 0)) := by
  obtain ⟨e, he, -, hr, -, -⟩ := mem_buildResultSet h
  subst hr
  constructor
  · rw [toRecord_distance]
    exact roundTo1_nonneg (calculateDistance_nonneg _ _ _ _)
  · exact ⟨e, he, rfl, toRecord_distance u e⟩

/-- Claim C6, witnessed at a concrete element in a singleton response. -/
theorem claim_C6_witness :
    0 ≤ (toRecord user0 elemFull).distance ∧
    ∃ e, e ∈ [elemFull] ∧ toRecord user0 elemFull = toRecord user0 e ∧
      (toRecord user0 elemFull).distance = roundTo1 (calculateDistance user0.lat user0.lng
        ((resolvedLat e).getD 0) ((resolvedLng e).getD 0)) :=
  claim_C6 [elemFull] user0 (toRecord user0 elemFull) mem_elemFull

lemma strOr_of_ne {s : String} (d : String) (h : s ≠ "") : strOr (some s) d = s := by
  simp [strOr, h]

lemma elemEmptyTags_named : hasNamedTags elemEmptyTags = true := rfl

lemma elemEmptyTags_lat : truthyNum (resolvedLat elemEmptyTags) = true := by
  simp [resolvedLat, elemEmptyTags, truthyNum]

lemma elemEmptyTags_lng : truthyNum (resolvedLng elemEmptyTags) = true := by
  simp [resolvedLng, elemEmptyTags, truthyNum]

/-- Claim C7 counterexample: an element whose addr:street and phone tags
are present but empty produces an output record carrying the sentinel
strings, not the tag values, because `||` treats `""` as falsy. -/
theorem claim_C7_cex :
    elemEmptyTags.tagsD.addrStreet = some "" ∧
    elemEmptyTags.tagsD.phone = some "" ∧
    toRecord user0 elemEmptyTags ∈ buildResultSet [elemEmptyTags] user0 ∧
    (toRecord user0 elemEmptyTags).address = "Address not available" ∧
    (toRecord user0 elemEmptyTags).phone = "N/A" := by
  refine ⟨rfl, rfl, ?_, rfl, rfl⟩
  rw [buildResultSet_singleton user0 elemEmptyTags_named elemEmptyTags_lat elemEmptyTags_lng]
  exact List.mem_singleton.mpr rfl

/-- Claim C7 (amended): every output record comes from a source element;
its address is the addr:street tag when that tag is present and nonempty
and the sentinel otherwise, its phone is the phone tag when present and
nonempty and the sentinel otherwise, and rating, specialties and open-now
always hold the fixed placeholders. -/
theorem claim_C7_amended (elems : List Element) (u : Coord) (r : HospitalData)
    (h : r ∈ buildResultSet elems u) :
    ∃ e, e ∈ elems ∧ r = toRecord u e ∧
      ((e.tagsD.addrStreet = none ∨ e.tagsD.addrStreet = some "") →
        r.address = "Address not available") ∧
      (∀ s, e.tagsD.addrStreet = some s → s ≠ "" → r.address = s) ∧
      ((e.tagsD.phone = none ∨ e.tagsD.phone = some "") → r.phone = "N/A") ∧
      (∀ s, e.tagsD.phone = some s → s ≠ "" → r.phone = s) ∧
      r.rating = 4 ∧ r.specialties = ["General Medicine"] ∧ r.openNow = true := by
  obtain ⟨e, he, -, hr, -, -⟩ := mem_buildResultSet h
  subst hr
  obtain ⟨ha, hp, -, hrat, hspec, hopen⟩ := toRecord_fields u e
  refine ⟨e, he, rfl, ?_, ?_, ?_, ?_, hrat, hspec, hopen⟩
  · intro hcase
    rw [ha]
    rcases hcase with hc | hc <;> rw [hc] <;> rfl
  · intro s hs hne
    rw [ha, hs]
    exact strOr_of_ne _ hne
  · intro hcase
    rw [hp]
    rcases hcase with hc | hc <;> rw [hc] <;> rfl
  · intro s hs hne
    rw [hp, hs]
    exact strOr_of_ne _ hne

/-- Claim C7 amended, witnessed at a concrete element with nonempty
address and phone tags. -/
theorem claim_C7_amended_witness :
    ∃ e, e ∈ [elemFull] ∧ toRecord user0 elemFull = toRecord user0 e ∧
      ((e.tagsD.addrStreet = none ∨ e.tagsD.addrStreet = some "") →
        (toRecord user0 elemFull).address = "Address not available") ∧
      (∀ s, e.tagsD.addrStreet = some s → s ≠ "" → (toRecord user0 elemFull).address = s) ∧
      ((e.tagsD.phone = none ∨ e.tagsD.phone = some "") →
        (toRecord user0 elemFull).phone = "N/A") ∧
      (∀ s, e.tagsD.phone = some s → s ≠ "" → (toRecord user0 elemFull).phone = s) ∧
      (toRecord user0 elemFull).rating = 4 ∧
      (toRecord user0 elemFull).specialties = ["General Medicine"] ∧
      (toRecord user0 elemFull).openNow = true :=
  claim_C7_amended [elemFull] user0 (toRecord user0 elemFull) mem_elemFull

/-- Claim C10: coordinate handling uses truthiness, not presence — a
record whose resolved latitude or longitude is exactly 0 never reaches
the output even though its coordinate is resolved, and a direct latitude
of 0 makes the resolution fall back to the center's latitude. -/
theorem claim_C10 :
    (∀ (elems : List Element) (u : Coord) (e : Element),
      resolvedLat e = some 0 ∨ resolvedLng e = some 0 →
      toRecord u e ∉ buildResultSet elems u) ∧
    (∀ (e : Element) (c : RawCenter), e.lat = some 0 → e.center = some c →
      resolvedLat e = some c.lat) := by
  constructor
  · intro elems u e h
    apply not_mem_buildResultSet_of_falsy
    rw [toRecord_loc]
    rcases h with h | h
    · left
      simp [h, truthyNum]
    · right
      simp [h, truthyNum]
  · intro e c h hc
    simp [resolvedLat, h, hc]

/-- Claim C10, witnessed at a concrete element whose direct latitude is 0
and whose center latitude is also 0. -/
theorem claim_C10_witness :
    toRecord user0 elemCenterZero ∉ buildResultSet [elemCenterZero] user0 ∧
    resolvedLat elemCenterZero = some (0 : ℝ) :=
  ⟨claim_C10.1 [elemCenterZero] user0 elemCenterZero
    (Or.inl (by simp [resolvedLat, elemCenterZero])),
   claim_C10.2 elemCenterZero ⟨0, 5⟩ rfl rfl⟩

end CarePlus
